import Mathlib

/-!
Verification of the causal-inference benchmark core: the synthetic data
generator and the difference-in-means ATE estimator, in both the Go
implementation (`GenerateCausalData`, `EstimateCausalEffect`) and the R
implementation (`generate_data`, `estimate_simple_ate`).

Modelling choices:
* Real values (`float64` in Go, numeric in R) are embedded as `ℚ`; the
  verified claims are structural (which expression is computed, how units
  are partitioned), not about floating-point rounding.
* The Go code draws from the process-global `math/rand` generator, which
  `rand.Seed` overwrites.  That global state is made explicit: the state is
  a parameter and a result of `GenerateCausalData`.  The pseudo-random
  algorithm itself lives outside this repository, so it is modelled by a
  concrete deterministic state transformer (a linear congruential step);
  every theorem below quantifies over the state, so nothing depends on the
  particular step function, only on `rand.Float64` returning a value in
  [0,1), which the model satisfies and which is proved as a lemma.
* R's `mean` of an empty vector is NaN; NaN is embedded as `none` in
  `Option ℚ`, and NaN propagation through subtraction as `Option` matching.
-/

/-- Modulus of the model pseudo-random generator state space. -/
def rngMod : ℕ := 2147483648

/-- One step of the model pseudo-random generator (a linear congruential
step standing in for the library generator, whose algorithm is outside the
repository). -/
def rngNext (s : ℕ) : ℕ := (1103515245 * s + 12345) % rngMod

/-- State of the process-global `math/rand` generator, made explicit. -/
abbrev RngState := ℕ

/-- Model of `rand.Seed(seed)`: the global generator state is overwritten
with a state derived from the seed alone. -/
def seedState (seed : ℤ) : RngState := seed.natAbs % rngMod

/-- Model of `rand.Float64()`: a uniform draw in [0,1), advancing the
global state. -/
def randFloat64 (g : RngState) : ℚ × RngState :=
  ((rngNext g : ℚ) / (rngMod : ℚ), rngNext g)

/-- Model of `rand.NormFloat64()`: a standard-normal draw, modelled as a
deterministic state transformer (its distribution is irrelevant to the
verified claims). -/
def randNormFloat64 (g : RngState) : ℚ × RngState :=
  (6 * ((rngNext g : ℚ) / (rngMod : ℚ)) - 3, rngNext g)

/-- CausalData struct for building synthetic data objects (Go
`causalinference.CausalData`). -/
structure CausalData where
  X : List ℚ
  Treatment : List ℤ
  Outcome : List ℚ
  TrueEffect : ℚ
  deriving Repr, DecidableEq

/-- The fixed true effect size written into every generated dataset
(`TrueEffect: 5.0` in the Go source, `true_effect <- 5.0` in R). -/
def TrueEffectConst : ℚ := 5

/-- One iteration of the generation loop of `GenerateCausalData`: draw the
covariate, draw a uniform value and compare it with `0.5*(X[i]+1)` to set
the treatment (the `if` writes 1, otherwise the zero initialisation from
`make` is kept), then draw the noise and form the outcome
`X[i] + float64(Treatment[i])*TrueEffect + noise`. -/
def genUnit (g : RngState) : (ℚ × ℤ × ℚ) × RngState :=
  let xd := randNormFloat64 g
  let ud := randFloat64 xd.2
  let t : ℤ := if ud.1 < (1/2) * (xd.1 + 1) then 1 else 0
  let nd := randNormFloat64 ud.2
  ((xd.1, t, xd.1 + (t : ℚ) * TrueEffectConst + nd.1), nd.2)

/-- The `for i := 0; i < n; i++` loop of `GenerateCausalData`, threading the
global generator state and collecting the three per-unit sequences. -/
def genLoop : ℕ → RngState → (List ℚ × List ℤ × List ℚ) × RngState
  | 0, g => (([], [], []), g)
  | n + 1, g =>
      (((genUnit g).1.1 :: (genLoop n (genUnit g).2).1.1,
        (genUnit g).1.2.1 :: (genLoop n (genUnit g).2).1.2.1,
        (genUnit g).1.2.2 :: (genLoop n (genUnit g).2).1.2.2),
       (genLoop n (genUnit g).2).2)

/-- GenerateCausalData creates synthetic data (Go).  The extra argument `g`
is the process-global `math/rand` state before the call; the extra result
is that global state after the call.  `rand.Seed(seed)` overwrites the
incoming state with `seedState seed` before the loop runs. -/
def GenerateCausalData (n : ℕ) (seed : ℤ) (g : RngState) :
    CausalData × RngState :=
  (⟨(genLoop n (seedState seed)).1.1,
    (genLoop n (seedState seed)).1.2.1,
    (genLoop n (seedState seed)).1.2.2,
    TrueEffectConst⟩,
   (genLoop n (seedState seed)).2)

/-- The accumulator loop of `EstimateCausalEffect`: one pass over the
(treatment, outcome) pairs maintaining `treatSum`, `treatCount`,
`controlSum`, `controlCount`. -/
def estLoop : List (ℤ × ℚ) → ℚ → ℕ → ℚ → ℕ → ℚ × ℕ × ℚ × ℕ
  | [], ts, tc, cs, cc => (ts, tc, cs, cc)
  | p :: rest, ts, tc, cs, cc =>
      if p.1 = 1 then estLoop rest (ts + p.2) (tc + 1) cs cc
      else estLoop rest ts tc (cs + p.2) (cc + 1)

/-- EstimateCausalEffect checks difference in means between treatment and
control groups (Go).  The loop `for i := range data.X` is embedded as the
zip of the treatment and outcome sequences truncated to `len(data.X)`
(identical when the three sequences have equal length, as in every
generated dataset).  If either count is zero the function returns 0. -/
def EstimateCausalEffect (data : CausalData) : ℚ :=
  let acc := estLoop ((data.Treatment.zip data.Outcome).take data.X.length) 0 0 0 0
  if acc.2.1 = 0 ∨ acc.2.2.2 = 0 then 0
  else acc.1 / (acc.2.1 : ℚ) - acc.2.2.1 / (acc.2.2.2 : ℚ)

/-- R `mean`: the arithmetic mean of a numeric vector, NaN (embedded as
`none`) when the vector is empty. -/
def rmean (xs : List ℚ) : Option ℚ :=
  if xs.isEmpty then none else some (xs.sum / (xs.length : ℚ))

/-- Subtraction of R numerics with NaN propagation: the result is NaN
(`none`) as soon as either operand is. -/
def nanSub : Option ℚ → Option ℚ → Option ℚ
  | some a, some b => some (a - b)
  | _, _ => none

/-- R `estimate_simple_ate`: select the outcomes of the rows with
`treatment == 1` and of the rows with `treatment == 0`, and subtract the
two means.  NaN (from the mean of an empty selection) propagates through
the subtraction as `none`. -/
def estimate_simple_ate (treatment : List ℤ) (outcome : List ℚ) : Option ℚ :=
  let pairs := treatment.zip outcome
  let treated := (pairs.filter (fun p => decide (p.1 = 1))).map Prod.snd
  let control := (pairs.filter (fun p => decide (p.1 = 0))).map Prod.snd
  nanSub (rmean treated) (rmean control)

/-- The pairs the Go estimator counts into `treatSum`/`treatCount`: those
with treatment equal to 1. -/
def treatedOf (pairs : List (ℤ × ℚ)) : List (ℤ × ℚ) :=
  pairs.filter (fun p => decide (p.1 = 1))

/-- The pairs the Go estimator counts into `controlSum`/`controlCount`:
every pair whose treatment is not 1. -/
def controlOf (pairs : List (ℤ × ℚ)) : List (ℤ × ℚ) :=
  pairs.filter (fun p => decide (p.1 ≠ 1))

/-- Arithmetic mean of a list of rationals (specification-side notion used
to state the claims about group means). -/
def listMean (xs : List ℚ) : ℚ := xs.sum / (xs.length : ℚ)

/-- Global generator state just before unit `i` of the generation loop that
started in state `g`. -/
def iterState (g : RngState) : ℕ → RngState
  | 0 => g
  | i + 1 => (genUnit (iterState g i)).2

/-- The model uniform draw is nonnegative. -/
lemma randFloat64_nonneg (g : RngState) : 0 ≤ (randFloat64 g).1 := by
  unfold randFloat64
  positivity

/-- The model uniform draw is strictly below 1, as `rand.Float64` returns a
value in [0,1). -/
lemma randFloat64_lt_one (g : RngState) : (randFloat64 g).1 < 1 := by
  unfold randFloat64
  rw [div_lt_one (by norm_num [rngMod])]
  have h : rngNext g < rngMod := Nat.mod_lt _ (by norm_num [rngMod])
  exact_mod_cast h

/-- Shifting the start state of the iterated per-unit state by one unit. -/
lemma iterState_shift (g : RngState) (i : ℕ) :
    iterState ((genUnit g).2) i = iterState g (i + 1) := by
  induction i with
  | zero => simp only [iterState]
  | succ i ih => simp only [iterState, ih]

/-- The generation loop returns three sequences of length `n`. -/
lemma genLoop_length (n : ℕ) : ∀ g : RngState,
    (genLoop n g).1.1.length = n ∧ (genLoop n g).1.2.1.length = n ∧
      (genLoop n g).1.2.2.length = n := by
  induction n with
  | zero => intro g; simp [genLoop]
  | succ n ih =>
      intro g
      simp only [genLoop, List.length_cons]
      exact ⟨by rw [(ih _).1], by rw [(ih _).2.1], by rw [(ih _).2.2]⟩

/-- Element `i` of each sequence built by the generation loop started in
state `g` is the corresponding component of the unit generated from the
iterated state `iterState g i`. -/
lemma genLoop_getD (n : ℕ) : ∀ g : RngState, ∀ i : ℕ, i < n →
    (genLoop n g).1.1.getD i 0 = (genUnit (iterState g i)).1.1 ∧
    (genLoop n g).1.2.1.getD i 0 = (genUnit (iterState g i)).1.2.1 ∧
    (genLoop n g).1.2.2.getD i 0 = (genUnit (iterState g i)).1.2.2 := by
  induction n with
  | zero => intro g i hi; omega
  | succ n ih =>
      intro g i hi
      cases i with
      | zero => simp [genLoop, iterState]
      | succ i =>
          have h := ih ((genUnit g).2) i (by omega)
          rw [iterState_shift] at h
          simpa [genLoop] using h

/-- Unfolding the treated-group filter over a cons cell. -/
lemma treatedOf_cons (p : ℤ × ℚ) (rest : List (ℤ × ℚ)) :
    treatedOf (p :: rest) =
      if p.1 = 1 then p :: treatedOf rest else treatedOf rest := by
  by_cases h : p.1 = 1 <;> simp [treatedOf, List.filter_cons, h]

/-- Unfolding the control-group filter over a cons cell. -/
lemma controlOf_cons (p : ℤ × ℚ) (rest : List (ℤ × ℚ)) :
    controlOf (p :: rest) =
      if p.1 = 1 then controlOf rest else p :: controlOf rest := by
  by_cases h : p.1 = 1 <;> simp [controlOf, List.filter_cons, h]

/-- The accumulator loop of the Go estimator computes the sums and counts
of the treated (treatment = 1) and control (treatment ≠ 1) pairs, on top of
the incoming accumulator values. -/
lemma estLoop_eq (pairs : List (ℤ × ℚ)) : ∀ (ts cs : ℚ) (tc cc : ℕ),
    estLoop pairs ts tc cs cc =
      (ts + ((treatedOf pairs).map Prod.snd).sum,
       tc + (treatedOf pairs).length,
       cs + ((controlOf pairs).map Prod.snd).sum,
       cc + (controlOf pairs).length) := by
  induction pairs with
  | nil => intro ts cs tc cc; simp [estLoop, treatedOf, controlOf]
  | cons p rest ih =>
      intro ts cs tc cc
      by_cases h : p.1 = 1
      · simp only [estLoop]
        rw [if_pos h, ih, treatedOf_cons, controlOf_cons, if_pos h, if_pos h]
        simp only [List.map_cons, List.sum_cons, List.length_cons,
          Prod.mk.injEq]
        exact ⟨by ring, by omega, trivial⟩
      · simp only [estLoop]
        rw [if_neg h, ih, treatedOf_cons, controlOf_cons, if_neg h, if_neg h]
        simp only [List.map_cons, List.sum_cons, List.length_cons,
          Prod.mk.injEq]
        exact ⟨trivial, trivial, by ring, by omega⟩

/-- For a dataset whose three sequences have equal length, the loop of the
Go estimator visits exactly the zip of the treatment and outcome lists. -/
lemma take_zip_eq (d : CausalData) (hT : d.Treatment.length = d.X.length)
    (hO : d.Outcome.length = d.X.length) :
    (d.Treatment.zip d.Outcome).take d.X.length = d.Treatment.zip d.Outcome := by
  apply List.take_of_length_le
  rw [List.length_zip, hT, hO]
  omega

/-- Closed form of the Go estimator on a length-consistent dataset: 0 when
either group is empty, and the difference of the two group means
otherwise. -/
lemma EstimateCausalEffect_eq (d : CausalData)
    (hT : d.Treatment.length = d.X.length) (hO : d.Outcome.length = d.X.length) :
    EstimateCausalEffect d =
      if (treatedOf (d.Treatment.zip d.Outcome)).length = 0 ∨
          (controlOf (d.Treatment.zip d.Outcome)).length = 0 then 0
      else ((treatedOf (d.Treatment.zip d.Outcome)).map Prod.snd).sum /
              ((treatedOf (d.Treatment.zip d.Outcome)).length : ℚ)
            - ((controlOf (d.Treatment.zip d.Outcome)).map Prod.snd).sum /
              ((controlOf (d.Treatment.zip d.Outcome)).length : ℚ) := by
  unfold EstimateCausalEffect
  rw [take_zip_eq d hT hO, estLoop_eq]
  simp

/-- NaN propagation on the left operand of the R subtraction. -/
lemma nanSub_none_left (x : Option ℚ) : nanSub none x = none := by
  cases x <;> rfl

/-- NaN propagation on the right operand of the R subtraction. -/
lemma nanSub_none_right (x : Option ℚ) : nanSub x none = none := by
  cases x <;> rfl

/-- C6: within one implementation, generation is deterministic in its
arguments — for every fixed pair (n, seed), two calls to the generator
(whatever the global generator state each call starts from, i.e. however
many calls happened before) produce identical datasets: the same covariate,
treatment and outcome sequences. -/
theorem generation_deterministic (n : ℕ) (seed : ℤ) (g1 g2 : RngState) :
    (GenerateCausalData n seed g1).1 = (GenerateCausalData n seed g2).1 := rfl

/-- C7: for every n ≥ 0 and every seed the generator succeeds (it is a
total function) and returns three sequences of length exactly n; in
particular generate(0, seed) yields empty sequences. -/
theorem generation_shape (n : ℕ) (seed : ℤ) (g : RngState) :
    ((GenerateCausalData n seed g).1.X.length = n ∧
      (GenerateCausalData n seed g).1.Treatment.length = n ∧
      (GenerateCausalData n seed g).1.Outcome.length = n) ∧
    ((GenerateCausalData 0 seed g).1.X = [] ∧
      (GenerateCausalData 0 seed g).1.Treatment = [] ∧
      (GenerateCausalData 0 seed g).1.Outcome = []) := by
  refine ⟨?_, rfl, rfl, rfl⟩
  simpa [GenerateCausalData] using genLoop_length n (seedState seed)

/-- C3 counterexample: the claim that generate(n, seed) modifies no mutable
state visible outside the call fails on the Go code, which reseeds the
process-global `math/rand` generator: starting from global state 1, the
call `GenerateCausalData 0 0` leaves the global state different from 1. -/
theorem generation_no_side_effect_counterexample :
    (GenerateCausalData 0 0 1).2 ≠ 1 := by decide

/-- C3 amended: `GenerateCausalData` does mutate the process-global random
state (so the state is not local to the call), but `rand.Seed` overwrites
that state, so both the post-call global state and the returned dataset
depend only on (n, seed) and never on the pre-call global state; and the
mutation is real — there is a pre-call state the call does not preserve. -/
theorem generation_overwrites_global_state :
    (∀ (n : ℕ) (seed : ℤ) (g1 g2 : RngState),
      GenerateCausalData n seed g1 = GenerateCausalData n seed g2) ∧
    (∃ g : RngState, (GenerateCausalData 0 0 g).2 ≠ g) :=
  ⟨fun _ _ _ _ => rfl, ⟨1, by decide⟩⟩

/-- C9: the Go estimator's result depends only on the treatment sequence,
the outcome sequence and the number of units: two datasets of the same
length with equal treatment and equal outcome sequences get the same
estimate, whatever their covariate values and `TrueEffect` fields. -/
theorem estimate_ignores_covariates (d1 d2 : CausalData)
    (hX : d1.X.length = d2.X.length) (hT : d1.Treatment = d2.Treatment)
    (hO : d1.Outcome = d2.Outcome) :
    EstimateCausalEffect d1 = EstimateCausalEffect d2 := by
  simp only [EstimateCausalEffect, hX, hT, hO]

/-- C9 witness: two concrete datasets differing in every covariate and in
the stored true effect, with equal treatment and outcome sequences, get
the same estimate. -/
theorem estimate_ignores_covariates_witness :
    ((⟨[1, 2], [1, 0], [5, 3], 5⟩ : CausalData).X.length =
        (⟨[9, 9], [1, 0], [5, 3], 7⟩ : CausalData).X.length ∧
      (⟨[1, 2], [1, 0], [5, 3], 5⟩ : CausalData).Treatment =
        (⟨[9, 9], [1, 0], [5, 3], 7⟩ : CausalData).Treatment ∧
      (⟨[1, 2], [1, 0], [5, 3], 5⟩ : CausalData).Outcome =
        (⟨[9, 9], [1, 0], [5, 3], 7⟩ : CausalData).Outcome) ∧
    EstimateCausalEffect ⟨[1, 2], [1, 0], [5, 3], 5⟩ =
      EstimateCausalEffect ⟨[9, 9], [1, 0], [5, 3], 7⟩ :=
  ⟨⟨rfl, rfl, rfl⟩, estimate_ignores_covariates _ _ rfl rfl rfl⟩

/-- Every treatment value written by the generation loop is 0 or 1: the `if`
writes 1 and otherwise the zero initialisation is kept. -/
lemma genLoop_treatment_mem (m : ℕ) : ∀ gs : RngState,
    ∀ t ∈ (genLoop m gs).1.2.1, t = 0 ∨ t = 1 := by
  induction m with
  | zero => intro gs t ht; simp [genLoop] at ht
  | succ m ih =>
      intro gs t ht
      simp only [genLoop, List.mem_cons] at ht
      rcases ht with h | h
      · have hu : (genUnit gs).1.2.1 =
            if (randFloat64 (randNormFloat64 gs).2).1 <
                (1/2) * ((randNormFloat64 gs).1 + 1) then (1 : ℤ) else 0 := rfl
        rw [hu] at h
        subst h
        split <;> simp
      · exact ih _ t h

/-- C8: for every n ≥ 0 and every seed (and every pre-call global generator
state), every element of the treatment sequence of the generated dataset is
exactly 0 or exactly 1. -/
theorem treatment_binary (n : ℕ) (seed : ℤ) (g : RngState) :
    ∀ t ∈ (GenerateCausalData n seed g).1.Treatment, t = 0 ∨ t = 1 := by
  intro t ht
  have hmem : t ∈ (genLoop n (seedState seed)).1.2.1 := by
    simpa [GenerateCausalData] using ht
  exact genLoop_treatment_mem n _ t hmem

/-- C8 witness: the single treatment value of a concrete generated dataset
is a member of the treatment sequence and is 0 or 1. -/
theorem treatment_binary_witness :
    (0 : ℤ) ∈ (GenerateCausalData 1 0 0).1.Treatment ∧
      ((0 : ℤ) = 0 ∨ (0 : ℤ) = 1) := by
  have hlist : (GenerateCausalData 1 0 0).1.Treatment = [0] := by
    norm_num [GenerateCausalData, genLoop, genUnit, seedState, randFloat64,
      randNormFloat64, rngNext, rngMod]
  have hmem : (0 : ℤ) ∈ (GenerateCausalData 1 0 0).1.Treatment := by
    rw [hlist]; exact List.mem_singleton.mpr rfl
  exact ⟨hmem, treatment_binary 1 0 0 0 hmem⟩

/-- C1 counterexample: on the single-unit dataset with treatment [0] and
outcome [1] — a dataset whose treated group is empty — the R implementation
`estimate_simple_ate` does not return 0: `mean` of the empty treated
selection is NaN and the returned ate is NaN (`none`), not 0. -/
theorem empty_group_zero_counterexample :
    estimate_simple_ate [0] [1] = none ∧ estimate_simple_ate [0] [1] ≠ some 0 := by
  have h : estimate_simple_ate [0] [1] = none := by
    norm_num [estimate_simple_ate, rmean, nanSub]
  exact ⟨h, by rw [h]; exact Option.noConfusion⟩

/-- C1 amended: the zero-group fallback holds for the Go estimator — on
every length-consistent dataset with an empty treated group or an empty
control group, `EstimateCausalEffect` returns exactly 0 (a total function,
so no division error) — but not for the R implementation: whenever the
`treatment == 1` selection or the `treatment == 0` selection is empty,
`estimate_simple_ate` returns NaN (`none`) rather than 0. -/
theorem empty_group_fallback :
    (∀ d : CausalData, d.Treatment.length = d.X.length →
      d.Outcome.length = d.X.length →
      (treatedOf (d.Treatment.zip d.Outcome) = [] ∨
        controlOf (d.Treatment.zip d.Outcome) = []) →
      EstimateCausalEffect d = 0) ∧
    (∀ (t : List ℤ) (o : List ℚ),
      ((t.zip o).filter (fun p => decide (p.1 = 1)) = [] ∨
        (t.zip o).filter (fun p => decide (p.1 = 0)) = []) →
      estimate_simple_ate t o = none) := by
  constructor
  · intro d hT hO hempty
    rw [EstimateCausalEffect_eq d hT hO]
    rcases hempty with h | h <;> simp [h]
  · intro t o hempty
    rcases hempty with h | h
    · simp only [estimate_simple_ate, h, List.map_nil]
      rw [show rmean [] = none from rfl, nanSub_none_left]
    · simp only [estimate_simple_ate, h, List.map_nil]
      rw [show rmean [] = none from rfl, nanSub_none_right]

/-- C1 witness: the fallback at concrete inputs — the all-control one-unit
dataset (treatment [0]) makes the Go estimator return 0, and the empty
dataset produced by generate(0, seed) does too; the R estimator on the
one-unit all-control data returns NaN (`none`). -/
theorem empty_group_fallback_witness :
    ((⟨[0], [0], [4], 5⟩ : CausalData).Treatment.length =
        (⟨[0], [0], [4], 5⟩ : CausalData).X.length ∧
      (⟨[0], [0], [4], 5⟩ : CausalData).Outcome.length =
        (⟨[0], [0], [4], 5⟩ : CausalData).X.length ∧
      (treatedOf ((⟨[0], [0], [4], 5⟩ : CausalData).Treatment.zip
            (⟨[0], [0], [4], 5⟩ : CausalData).Outcome) = [] ∨
        controlOf ((⟨[0], [0], [4], 5⟩ : CausalData).Treatment.zip
            (⟨[0], [0], [4], 5⟩ : CausalData).Outcome) = []) ∧
      EstimateCausalEffect ⟨[0], [0], [4], 5⟩ = 0) ∧
    (EstimateCausalEffect (GenerateCausalData 0 42 0).1 = 0) ∧
    ((([(0 : ℤ)].zip [(1 : ℚ)]).filter (fun p => decide (p.1 = 1)) = [] ∨
        ([(0 : ℤ)].zip [(1 : ℚ)]).filter (fun p => decide (p.1 = 0)) = []) ∧
      estimate_simple_ate [0] [1] = none) := by
  have h1 : treatedOf ((⟨[0], [0], [4], 5⟩ : CausalData).Treatment.zip
      (⟨[0], [0], [4], 5⟩ : CausalData).Outcome) = [] := by
    simp [treatedOf]
  have h2 : ([(0 : ℤ)].zip [(1 : ℚ)]).filter (fun p => decide (p.1 = 1)) = [] := by
    simp
  refine ⟨⟨rfl, rfl, Or.inl h1, empty_group_fallback.1 _ rfl rfl (Or.inl h1)⟩,
    ?_, Or.inl h2, empty_group_fallback.2 _ _ (Or.inl h2)⟩
  exact empty_group_fallback.1 _ rfl rfl (Or.inl (by simp [treatedOf, GenerateCausalData, genLoop]))

/-- On pairs whose treatment component is 0 or 1, the control group of the
Go estimator (treatment ≠ 1) is exactly the treatment = 0 selection. -/
lemma controlOf_eq_zero_filter (pairs : List (ℤ × ℚ))
    (hbin : ∀ p ∈ pairs, p.1 = 0 ∨ p.1 = 1) :
    controlOf pairs = pairs.filter (fun p => decide (p.1 = 0)) := by
  unfold controlOf
  apply List.filter_congr
  intro p hp
  rcases hbin p hp with h0 | h1
  · simp [h0]
  · simp [h1]

/-- C2: on every length-consistent dataset whose treatment values are all
0 or 1 and in which both the treated group (treatment = 1) and the control
group (treatment = 0) are non-empty, the Go estimator returns the
arithmetic mean of the treated outcomes minus the arithmetic mean of the
control outcomes. -/
theorem estimate_is_difference_of_means (d : CausalData)
    (hT : d.Treatment.length = d.X.length)
    (hO : d.Outcome.length = d.X.length)
    (hbin : ∀ t ∈ d.Treatment, t = 0 ∨ t = 1)
    (htr : (d.Treatment.zip d.Outcome).filter (fun p => decide (p.1 = 1)) ≠ [])
    (hct : (d.Treatment.zip d.Outcome).filter (fun p => decide (p.1 = 0)) ≠ []) :
    EstimateCausalEffect d =
      listMean (((d.Treatment.zip d.Outcome).filter
          (fun p => decide (p.1 = 1))).map Prod.snd)
        - listMean (((d.Treatment.zip d.Outcome).filter
          (fun p => decide (p.1 = 0))).map Prod.snd) := by
  have hbinp : ∀ p ∈ d.Treatment.zip d.Outcome, p.1 = 0 ∨ p.1 = 1 := by
    intro p hp
    obtain ⟨a, b⟩ := p
    exact hbin a (List.of_mem_zip hp).1
  have hco := controlOf_eq_zero_filter (d.Treatment.zip d.Outcome) hbinp
  have hlen1 : (treatedOf (d.Treatment.zip d.Outcome)).length ≠ 0 := by
    simpa [treatedOf, List.length_eq_zero] using htr
  have hlen2 : (controlOf (d.Treatment.zip d.Outcome)).length ≠ 0 := by
    rw [hco]
    simpa [List.length_eq_zero] using hct
  rw [EstimateCausalEffect_eq d hT hO, if_neg (by tauto), hco]
  simp [listMean, treatedOf]

/-- C2 witness: on the two-unit dataset with treatments [1, 0] and outcomes
[7, 3], all hypotheses hold and the estimate is the difference of the group
means. -/
theorem estimate_is_difference_of_means_witness :
    ((⟨[0, 0], [1, 0], [7, 3], 5⟩ : CausalData).Treatment.length =
        (⟨[0, 0], [1, 0], [7, 3], 5⟩ : CausalData).X.length ∧
      (⟨[0, 0], [1, 0], [7, 3], 5⟩ : CausalData).Outcome.length =
        (⟨[0, 0], [1, 0], [7, 3], 5⟩ : CausalData).X.length ∧
      (∀ t ∈ (⟨[0, 0], [1, 0], [7, 3], 5⟩ : CausalData).Treatment,
        t = 0 ∨ t = 1) ∧
      ((⟨[0, 0], [1, 0], [7, 3], 5⟩ : CausalData).Treatment.zip
          (⟨[0, 0], [1, 0], [7, 3], 5⟩ : CausalData).Outcome).filter
        (fun p => decide (p.1 = 1)) ≠ [] ∧
      ((⟨[0, 0], [1, 0], [7, 3], 5⟩ : CausalData).Treatment.zip
          (⟨[0, 0], [1, 0], [7, 3], 5⟩ : CausalData).Outcome).filter
        (fun p => decide (p.1 = 0)) ≠ []) ∧
    EstimateCausalEffect ⟨[0, 0], [1, 0], [7, 3], 5⟩ =
      listMean ((((⟨[0, 0], [1, 0], [7, 3], 5⟩ : CausalData).Treatment.zip
          (⟨[0, 0], [1, 0], [7, 3], 5⟩ : CausalData).Outcome).filter
        (fun p => decide (p.1 = 1))).map Prod.snd)
        - listMean ((((⟨[0, 0], [1, 0], [7, 3], 5⟩ : CausalData).Treatment.zip
          (⟨[0, 0], [1, 0], [7, 3], 5⟩ : CausalData).Outcome).filter
        (fun p => decide (p.1 = 0))).map Prod.snd) := by
  have hbin : ∀ t ∈ (⟨[0, 0], [1, 0], [7, 3], 5⟩ : CausalData).Treatment,
      t = 0 ∨ t = 1 := by
    intro t ht
    simp only [List.mem_cons, List.not_mem_nil, or_false] at ht
    rcases ht with h | h <;> simp [h]
  have htr : ((⟨[0, 0], [1, 0], [7, 3], 5⟩ : CausalData).Treatment.zip
      (⟨[0, 0], [1, 0], [7, 3], 5⟩ : CausalData).Outcome).filter
      (fun p => decide (p.1 = 1)) ≠ [] := by simp
  have hct : ((⟨[0, 0], [1, 0], [7, 3], 5⟩ : CausalData).Treatment.zip
      (⟨[0, 0], [1, 0], [7, 3], 5⟩ : CausalData).Outcome).filter
      (fun p => decide (p.1 = 0)) ≠ [] := by simp
  exact ⟨⟨rfl, rfl, hbin, htr, hct⟩,
    estimate_is_difference_of_means _ rfl rfl hbin htr hct⟩

/-- C10: the Go estimator partitions the units by the test treatment = 1
against everything else — every unit whose treatment is not 1 (for example
2 or -1) belongs to the control selection and not to the treated selection,
and the estimate is computed from exactly those two selections (their
outcome sums and counts). -/
theorem nonbinary_treatment_counts_as_control (d : CausalData)
    (hT : d.Treatment.length = d.X.length)
    (hO : d.Outcome.length = d.X.length) :
    (∀ p ∈ d.Treatment.zip d.Outcome, p.1 ≠ 1 →
      p ∈ controlOf (d.Treatment.zip d.Outcome) ∧
        p ∉ treatedOf (d.Treatment.zip d.Outcome)) ∧
    EstimateCausalEffect d =
      (if (treatedOf (d.Treatment.zip d.Outcome)).length = 0 ∨
          (controlOf (d.Treatment.zip d.Outcome)).length = 0 then 0
        else ((treatedOf (d.Treatment.zip d.Outcome)).map Prod.snd).sum /
              ((treatedOf (d.Treatment.zip d.Outcome)).length : ℚ)
            - ((controlOf (d.Treatment.zip d.Outcome)).map Prod.snd).sum /
              ((controlOf (d.Treatment.zip d.Outcome)).length : ℚ)) := by
  refine ⟨?_, EstimateCausalEffect_eq d hT hO⟩
  intro p hp hne
  constructor
  · simp [controlOf, List.mem_filter, hp, hne]
  · simp only [treatedOf, List.mem_filter]
    intro hcontra
    exact hne (by simpa using hcontra.2)

/-- C10 witness: in a dataset holding the out-of-range treatment values 2
and -1, those units fall into the control selection, and the estimate is
the characterised group-selection formula at that dataset. -/
theorem nonbinary_treatment_counts_as_control_witness :
    ((⟨[0, 0, 0], [1, 2, -1], [10, 4, 2], 5⟩ : CausalData).Treatment.length =
        (⟨[0, 0, 0], [1, 2, -1], [10, 4, 2], 5⟩ : CausalData).X.length ∧
      (⟨[0, 0, 0], [1, 2, -1], [10, 4, 2], 5⟩ : CausalData).Outcome.length =
        (⟨[0, 0, 0], [1, 2, -1], [10, 4, 2], 5⟩ : CausalData).X.length) ∧
    (∀ p ∈ (⟨[0, 0, 0], [1, 2, -1], [10, 4, 2], 5⟩ : CausalData).Treatment.zip
        (⟨[0, 0, 0], [1, 2, -1], [10, 4, 2], 5⟩ : CausalData).Outcome,
      p.1 ≠ 1 →
      p ∈ controlOf ((⟨[0, 0, 0], [1, 2, -1], [10, 4, 2], 5⟩ : CausalData).Treatment.zip
          (⟨[0, 0, 0], [1, 2, -1], [10, 4, 2], 5⟩ : CausalData).Outcome) ∧
        p ∉ treatedOf ((⟨[0, 0, 0], [1, 2, -1], [10, 4, 2], 5⟩ : CausalData).Treatment.zip
          (⟨[0, 0, 0], [1, 2, -1], [10, 4, 2], 5⟩ : CausalData).Outcome)) ∧
    EstimateCausalEffect ⟨[0, 0, 0], [1, 2, -1], [10, 4, 2], 5⟩ =
      (if (treatedOf ((⟨[0, 0, 0], [1, 2, -1], [10, 4, 2], 5⟩ : CausalData).Treatment.zip
            (⟨[0, 0, 0], [1, 2, -1], [10, 4, 2], 5⟩ : CausalData).Outcome)).length = 0 ∨
          (controlOf ((⟨[0, 0, 0], [1, 2, -1], [10, 4, 2], 5⟩ : CausalData).Treatment.zip
            (⟨[0, 0, 0], [1, 2, -1], [10, 4, 2], 5⟩ : CausalData).Outcome)).length = 0 then 0
        else ((treatedOf ((⟨[0, 0, 0], [1, 2, -1], [10, 4, 2], 5⟩ : CausalData).Treatment.zip
              (⟨[0, 0, 0], [1, 2, -1], [10, 4, 2], 5⟩ : CausalData).Outcome)).map Prod.snd).sum /
              ((treatedOf ((⟨[0, 0, 0], [1, 2, -1], [10, 4, 2], 5⟩ : CausalData).Treatment.zip
              (⟨[0, 0, 0], [1, 2, -1], [10, 4, 2], 5⟩ : CausalData).Outcome)).length : ℚ)
            - ((controlOf ((⟨[0, 0, 0], [1, 2, -1], [10, 4, 2], 5⟩ : CausalData).Treatment.zip
              (⟨[0, 0, 0], [1, 2, -1], [10, 4, 2], 5⟩ : CausalData).Outcome)).map Prod.snd).sum /
              ((controlOf ((⟨[0, 0, 0], [1, 2, -1], [10, 4, 2], 5⟩ : CausalData).Treatment.zip
              (⟨[0, 0, 0], [1, 2, -1], [10, 4, 2], 5⟩ : CausalData).Outcome)).length : ℚ)) := by
  have h := nonbinary_treatment_counts_as_control
    ⟨[0, 0, 0], [1, 2, -1], [10, 4, 2], 5⟩ rfl rfl
  exact ⟨⟨rfl, rfl⟩, h.1, h.2⟩

/-- The three per-unit fields of a generated dataset, at index i < n, in
terms of the draws made from the state reached before unit i. -/
lemma generated_getD (n : ℕ) (seed : ℤ) (g : RngState) (i : ℕ) (hi : i < n) :
    (GenerateCausalData n seed g).1.X.getD i 0 =
        (genUnit (iterState (seedState seed) i)).1.1 ∧
    (GenerateCausalData n seed g).1.Treatment.getD i 0 =
        (genUnit (iterState (seedState seed) i)).1.2.1 ∧
    (GenerateCausalData n seed g).1.Outcome.getD i 0 =
        (genUnit (iterState (seedState seed) i)).1.2.2 := by
  have h := genLoop_getD n (seedState seed) i hi
  exact ⟨by simpa [GenerateCausalData] using h.1,
    by simpa [GenerateCausalData] using h.2.1,
    by simpa [GenerateCausalData] using h.2.2⟩

/-- C4: unit i of generate(n, seed) has treatment 1 exactly when its
uniform [0,1) draw is strictly below 0.5 * (covariate + 1) — the threshold
being the raw arithmetic expression, not clamped to [0,1] — and 0
otherwise; consequently a covariate ≥ 1 forces treatment 1 and a
covariate ≤ -1 forces treatment 0. -/
theorem treatment_assignment_rule (n : ℕ) (seed : ℤ) (g : RngState) (i : ℕ)
    (hi : i < n) :
    ((GenerateCausalData n seed g).1.Treatment.getD i 0 = 1 ↔
        (randFloat64 (randNormFloat64 (iterState (seedState seed) i)).2).1 <
          (1/2) * ((randNormFloat64 (iterState (seedState seed) i)).1 + 1)) ∧
    (¬ (randFloat64 (randNormFloat64 (iterState (seedState seed) i)).2).1 <
          (1/2) * ((randNormFloat64 (iterState (seedState seed) i)).1 + 1) →
        (GenerateCausalData n seed g).1.Treatment.getD i 0 = 0) ∧
    (1 ≤ (randNormFloat64 (iterState (seedState seed) i)).1 →
        (GenerateCausalData n seed g).1.Treatment.getD i 0 = 1) ∧
    ((randNormFloat64 (iterState (seedState seed) i)).1 ≤ -1 →
        (GenerateCausalData n seed g).1.Treatment.getD i 0 = 0) := by
  have hT := (generated_getD n seed g i hi).2.1
  have hunit : (genUnit (iterState (seedState seed) i)).1.2.1 =
      if (randFloat64 (randNormFloat64 (iterState (seedState seed) i)).2).1 <
          (1/2) * ((randNormFloat64 (iterState (seedState seed) i)).1 + 1)
      then (1 : ℤ) else 0 := rfl
  rw [hT, hunit]
  have hu0 := randFloat64_nonneg ((randNormFloat64 (iterState (seedState seed) i)).2)
  have hu1 := randFloat64_lt_one ((randNormFloat64 (iterState (seedState seed) i)).2)
  refine ⟨?_, ?_, ?_, ?_⟩
  · by_cases hc : (randFloat64 (randNormFloat64 (iterState (seedState seed) i)).2).1 <
        (1/2) * ((randNormFloat64 (iterState (seedState seed) i)).1 + 1)
    · simp [hc]
    · simp [hc]
  · intro hnc
    rw [if_neg hnc]
  · intro hx
    rw [if_pos (by linarith)]
  · intro hx
    rw [if_neg (by intro hc; linarith)]

/-- C4 witness: the assignment rule instantiated at n = 1, seed = 0, unit
index 0. -/
theorem treatment_assignment_rule_witness :
    (0 : ℕ) < 1 ∧
    (((GenerateCausalData 1 0 0).1.Treatment.getD 0 0 = 1 ↔
        (randFloat64 (randNormFloat64 (iterState (seedState 0) 0)).2).1 <
          (1/2) * ((randNormFloat64 (iterState (seedState 0) 0)).1 + 1)) ∧
      (¬ (randFloat64 (randNormFloat64 (iterState (seedState 0) 0)).2).1 <
          (1/2) * ((randNormFloat64 (iterState (seedState 0) 0)).1 + 1) →
        (GenerateCausalData 1 0 0).1.Treatment.getD 0 0 = 0) ∧
      (1 ≤ (randNormFloat64 (iterState (seedState 0) 0)).1 →
        (GenerateCausalData 1 0 0).1.Treatment.getD 0 0 = 1) ∧
      ((randNormFloat64 (iterState (seedState 0) 0)).1 ≤ -1 →
        (GenerateCausalData 1 0 0).1.Treatment.getD 0 0 = 0)) :=
  ⟨Nat.zero_lt_one, treatment_assignment_rule 1 0 0 0 Nat.zero_lt_one⟩

/-- C5: for every unit i of every generated dataset, the outcome equals
covariate + true_effect * treatment + noise, where noise is the unit's
second standard-normal draw (the third draw of the unit) and the
true_effect stored in the dataset is the constant 5, the same for all
units of the call. -/
theorem outcome_formula (n : ℕ) (seed : ℤ) (g : RngState) (i : ℕ)
    (hi : i < n) :
    (GenerateCausalData n seed g).1.TrueEffect = 5 ∧
    (GenerateCausalData n seed g).1.Outcome.getD i 0 =
      (GenerateCausalData n seed g).1.X.getD i 0 +
        (GenerateCausalData n seed g).1.TrueEffect *
          ((GenerateCausalData n seed g).1.Treatment.getD i 0 : ℚ) +
        (randNormFloat64
          (randFloat64 (randNormFloat64 (iterState (seedState seed) i)).2).2).1 := by
  obtain ⟨hX, hT, hO⟩ := generated_getD n seed g i hi
  refine ⟨rfl, ?_⟩
  rw [hX, hT, hO]
  show (genUnit (iterState (seedState seed) i)).1.2.2 =
    (genUnit (iterState (seedState seed) i)).1.1 +
      TrueEffectConst * ((genUnit (iterState (seedState seed) i)).1.2.1 : ℚ) +
      (randNormFloat64
        (randFloat64 (randNormFloat64 (iterState (seedState seed) i)).2).2).1
  simp only [genUnit]
  ring

/-- C5 witness: the outcome formula instantiated at n = 1, seed = 0, unit
index 0. -/
theorem outcome_formula_witness :
    (0 : ℕ) < 1 ∧
    ((GenerateCausalData 1 0 0).1.TrueEffect = 5 ∧
      (GenerateCausalData 1 0 0).1.Outcome.getD 0 0 =
        (GenerateCausalData 1 0 0).1.X.getD 0 0 +
          (GenerateCausalData 1 0 0).1.TrueEffect *
            ((GenerateCausalData 1 0 0).1.Treatment.getD 0 0 : ℚ) +
          (randNormFloat64
            (randFloat64 (randNormFloat64 (iterState (seedState 0) 0)).2).2).1) :=
  ⟨Nat.zero_lt_one, outcome_formula 1 0 0 0 Nat.zero_lt_one⟩
